import Mathlib

/-!
Verification of the durable task queue and worker dispatch subsystem of
the dependency-orchestrator repository.

The embedding models:
* the task row of the `tasks` table (`src/orchestrator/a2a/postgres_queue.py`),
  with timestamps as natural-number epoch seconds and JSON payloads as
  opaque strings;
* the claim protocol (`get_next_task`), the status update
  (`update_task_status`) and task-id uniqueness, whose SQL definitions
  live in database migrations that are not part of the source tree —
  those are modelled from the specification, as marked on each definition;
* `cancel_task`, `get_queue_stats` and the `get_next_task` Python wrapper,
  translated directly from `postgres_queue.py`;
* the worker loop of `src/orchestrator/postgres_worker.py` as a step
  function over per-iteration poll events, with the external execution
  contracts (`execute_consumer_triage`, `execute_template_triage`, which
  perform network calls) as parameters;
* backend selection of `src/orchestrator/a2a/unified_queue.py`.
-/

namespace DepOrch

/-- Task status: the `status` column (`queued`, `started`, `finished`, `failed`). -/
inductive Status where
  | queued
  | started
  | finished
  | failed
  deriving DecidableEq, Repr

/-- Terminal states: `finished` and `failed`. -/
def Status.isTerminal : Status → Bool
  | .finished => true
  | .failed => true
  | _ => false

/-- One row of the `tasks` table, as selected by
`PostgresTaskQueue.get_task_status`.  Timestamps are epoch seconds;
`result`, `change_event` and `relationship_config` are opaque JSON strings. -/
structure Task where
  task_id : String
  skill_name : String
  task_type : String
  status : Status
  source_repo : String
  target_repo : String
  change_event : String
  relationship_config : String
  created_at : Nat
  started_at : Option Nat
  ended_at : Option Nat
  result : Option String
  error : Option String
  worker_id : Option String
  attempt_count : Nat
  deriving DecidableEq, Repr

/-- The task store: the rows of the `tasks` table. -/
abbrev Store := List Task

/-- Rows counted as matching a given task id. -/
def countId (store : Store) (i : String) : Nat :=
  (store.filter (fun t => t.task_id == i)).length

/-! ## cancel_task (PostgresTaskQueue.cancel_task) -/

/-- Effect of the `UPDATE tasks SET status = 'failed', error = 'Cancelled by user',
ended_at = NOW() WHERE task_id = %s AND status IN ('queued', 'started')`
statement on a single row. -/
def cancelRow (task_id : String) (now : Nat) (t : Task) : Task :=
  if t.task_id == task_id && (t.status == Status.queued || t.status == Status.started)
  then { t with status := Status.failed, error := some "Cancelled by user",
                ended_at := some now }
  else t

/-- `PostgresTaskQueue.cancel_task`: runs the update over the table and
returns `cur.rowcount > 0`, the flag whether any row matched the filter. -/
def cancel_task (store : Store) (task_id : String) (now : Nat) : Store × Bool :=
  (store.map (cancelRow task_id now),
   store.any (fun t =>
     t.task_id == task_id && (t.status == Status.queued || t.status == Status.started)))

/-! ## get_next_task: the Python wrapper in postgres_queue.py -/

/-- Per-call backend failures during a queue operation. -/
inductive DbError where
  | connectionLost
  | serializationFailure
  | queryError (msg : String)
  deriving DecidableEq, Repr

/-- `PostgresTaskQueue.get_next_task`: given the outcome of the backend call
(`SELECT * FROM get_next_task(%s)`, which may raise), the wrapper returns the
row, `None` for an empty queue, and — via its `except` clause that logs and
falls through — also `None` for every backend error. -/
def get_next_task (backendOutcome : Except DbError (Option Task)) : Option Task :=
  match backendOutcome with
  | .ok r => r
  | .error _ => none

/-! ## get_queue_stats (PostgresTaskQueue.get_queue_stats) -/

/-- The statistics window used by the SQL queries: 24 hours, in seconds. -/
def statsWindow : Nat := 24 * 60 * 60

/-- `created_at > NOW() - INTERVAL 24 hours`, rewritten additively so that
natural-number subtraction never truncates. -/
def inWindow (now created : Nat) : Bool := now < created + statsWindow

/-- `SELECT status, COUNT(*) FROM tasks GROUP BY status`, read off for one
status value.  Note: no time window is applied to this query. -/
def countStatus (store : Store) (s : Status) : Nat :=
  (store.filter (fun t => t.status == s)).length

/-- `SELECT task_type, COUNT(*) FROM tasks WHERE created_at > NOW() - 24h
GROUP BY task_type`, read off for one task type. -/
def typeCount (store : Store) (now : Nat) (ty : String) : Nat :=
  (store.filter (fun t => t.task_type == ty && inWindow now t.created_at)).length

/-- The values `EXTRACT(EPOCH FROM (ended_at - started_at))` aggregated by the
`AVG` query: rows with `status = 'finished' AND ended_at IS NOT NULL AND
created_at > NOW() - 24h`; rows whose `started_at` is NULL yield a NULL
difference, which SQL `AVG` ignores, hence the extra `started_at` filter. -/
def finishedDurations (store : Store) (now : Nat) : List Int :=
  (store.filter (fun t =>
      t.status == Status.finished && t.ended_at.isSome && t.started_at.isSome &&
      inWindow now t.created_at)).map
    (fun t => ((t.ended_at.getD 0 : Nat) : Int) - ((t.started_at.getD 0 : Nat) : Int))

/-- The `avg_duration_seconds` value: SQL `AVG` returns NULL on an empty
aggregate, and the Python `row['avg_duration_seconds'] or 0` maps that to 0. -/
def avg_duration_seconds (store : Store) (now : Nat) : Rat :=
  let ds := finishedDurations store now
  if ds.length = 0 then 0 else (ds.sum : Rat) / (ds.length : Rat)

/-- The dictionary returned by `PostgresTaskQueue.get_queue_stats`. -/
structure QueueStats where
  queued : Nat
  processing : Nat
  completed : Nat
  failed : Nat
  type_counts : String → Nat
  avg_duration : Rat

/-- `PostgresTaskQueue.get_queue_stats`. -/
def get_queue_stats (store : Store) (now : Nat) : QueueStats :=
  { queued := countStatus store Status.queued
    processing := countStatus store Status.started
    completed := countStatus store Status.finished
    failed := countStatus store Status.failed
    type_counts := fun ty => typeCount store now ty
    avg_duration := avg_duration_seconds store now }

/-- The mean duration as the specification words it: computed over exactly the
finished rows whose `ended_at` falls inside the window.  Stated from the
spec text, for comparison with `avg_duration_seconds` above. -/
def claimed_mean_duration (store : Store) (now : Nat) : Rat :=
  let ds := (store.filter (fun t =>
      t.status == Status.finished &&
      (match t.ended_at with
       | some e => inWindow now e
       | none => false))).map
    (fun t => ((t.ended_at.getD 0 : Nat) : Int) - ((t.started_at.getD 0 : Nat) : Int))
  if ds.length = 0 then 0 else (ds.sum : Rat) / (ds.length : Rat)

/-! ## The claim protocol: the SQL function get_next_task(worker_id) -/

/-- Ordering used by the claim protocol: oldest `created_at` first, ties
broken by `task_id`. -/
def taskLE (t u : Task) : Bool :=
  decide (t.created_at < u.created_at) ||
  (t.created_at == u.created_at && decide (t.task_id ≤ u.task_id))

/-- The older of two rows under `taskLE`. -/
def olderTask (t u : Task) : Task := if taskLE t u then t else u

/-- First row of the backlog in claim order. -/
def pickOldest : List Task → Option Task
  | [] => none
  | t :: ts => some (ts.foldl olderTask t)

/-- The fields the claim transition writes on the claimed row. -/
def startTask (t : Task) (w : String) (now : Nat) : Task :=
  { t with status := Status.started, worker_id := some w,
           started_at := some now, attempt_count := t.attempt_count + 1 }

/-- Modelled from the spec: the SQL function `get_next_task(worker_id)` that
`PostgresTaskQueue.get_next_task` invokes (`SELECT * FROM get_next_task(%s)`)
is defined in database migrations that are not part of the source tree.
Per the specification it is a single atomic unit that selects one `queued`
row, oldest `created_at` first with ties broken by `task_id`, sets
`status = started`, `worker_id`, `started_at = now`, increments
`attempt_count`, and returns the row; it returns no row when nothing is
queued.  Atomicity makes concurrent claims serializable, so concurrency is
modelled as sequential application. -/
def claimNext (store : Store) (w : String) (now : Nat) : Option Task × Store :=
  match pickOldest (store.filter (fun t => t.status == Status.queued)) with
  | none => (none, store)
  | some t =>
      let t2 := startTask t w now
      (some t2, store.map (fun u => if u.task_id == t.task_id then t2 else u))

/-- Number of `queued` rows. -/
def countQueued (store : Store) : Nat :=
  (store.filter (fun t => t.status == Status.queued)).length

/-- Whether some row with the given id is currently `queued`. -/
def idQueued (store : Store) (i : String) : Bool :=
  store.any (fun t => t.task_id == i && t.status == Status.queued)

/-- A sequence of claim calls, one per worker in the list, applied
successively to the store; returns the successfully claimed rows.  This is
the serialization of N concurrent claimants. -/
def runClaims (now : Nat) : Store → List String → List Task × Store
  | s, [] => ([], s)
  | s, w :: ws =>
      match claimNext s w now with
      | (none, s1) => runClaims now s1 ws
      | (some t, s1) =>
          let r := runClaims now s1 ws
          (t :: r.1, r.2)

/-! ## update_task_status: the SQL function -/

/-- Failure of a status update. -/
inductive UpdateError where
  | invalidTransition
  deriving DecidableEq, Repr

/-- Modelled from the spec: the SQL function `update_task_status(task_id,
status, result, error)` that `PostgresTaskQueue.update_task_status` invokes
is defined in database migrations that are not part of the source tree.
Per the specification, `updateStatus` rejects transitions out of a terminal
state, is idempotent when the same terminal status is written twice with the
same payload, and fails with `InvalidTransitionError` otherwise; a
non-terminal row takes the new status and payload, with `ended_at` set on
reaching a terminal state. -/
def update_task_status (t : Task) (st : Status) (result error : Option String)
    (now : Nat) : Except UpdateError Task :=
  if t.status.isTerminal then
    if st == t.status && result == t.result && error == t.error then
      Except.ok t
    else
      Except.error UpdateError.invalidTransition
  else
    Except.ok { t with
      status := st
      result := result
      error := error
      ended_at := if st.isTerminal then some now else t.ended_at }

/-! ## enqueue_task (PostgresTaskQueue.enqueue_task, explicit task_id) -/

/-- Failure of an enqueue. -/
inductive EnqueueError where
  | duplicateTask
  deriving DecidableEq, Repr

/-- The row inserted by the `INSERT INTO tasks ... VALUES (..., 'queued', ...)`
statement of `enqueue_task`. -/
def newQueuedTask (task_id skill_name task_type source_repo target_repo
    change_event relationship_config : String) (now : Nat) : Task :=
  { task_id := task_id, skill_name := skill_name, task_type := task_type,
    status := Status.queued, source_repo := source_repo,
    target_repo := target_repo, change_event := change_event,
    relationship_config := relationship_config, created_at := now,
    started_at := none, ended_at := none, result := none, error := none,
    worker_id := none, attempt_count := 0 }

/-- `PostgresTaskQueue.enqueue_task` with an explicit `task_id`: the INSERT
either adds one `queued` row or raises, is rolled back, and the error is
re-raised.  Modelled from the spec: the `tasks` table's uniqueness
constraint on `task_id` (its DDL is not part of the source tree); per the
specification a duplicate explicit id fails with `DuplicateTaskError`. -/
def enqueue_task (store : Store) (skill_name task_type source_repo target_repo
    change_event relationship_config : String) (task_id : String) (now : Nat) :
    Except EnqueueError (String × Store) :=
  if store.any (fun t => t.task_id == task_id) then
    Except.error EnqueueError.duplicateTask
  else
    Except.ok (task_id,
      store ++ [newQueuedTask task_id skill_name task_type source_repo
        target_repo change_event relationship_config now])

/-! ## The worker loop (PostgresWorker) -/

/-- The external execution contracts invoked by `PostgresWorker._execute_task`:
`execute_consumer_triage` and `execute_template_triage` perform LLM and
GitHub network calls, so they are parameters of the embedding; each returns
a result or raises with a message. -/
structure ExecContracts where
  consumer_triage : Task → Except String String
  template_triage : Task → Except String String

/-- `PostgresWorker._execute_task`: dispatch on `task['task_type']`; an
unknown type raises `ValueError(f"Unknown task type: ...")`, whose `str`
is exactly that message. -/
def execute_task (c : ExecContracts) (t : Task) : Except String String :=
  if t.task_type == "consumer_triage" then c.consumer_triage t
  else if t.task_type == "template_triage" then c.template_triage t
  else Except.error ("Unknown task type: " ++ t.task_type)

/-- `max_consecutive_errors` in `PostgresWorker.run`. -/
def maxConsecutiveErrors : Nat := 5

/-- Outcome of one iteration's interaction with the environment: the poll
returned a task, the poll returned `None`, the iteration body raised a
system-level error (database connection and the like, caught by the outer
`except Exception`), or a keyboard interrupt arrived. -/
inductive PollEvent where
  | task (t : Task)
  | empty
  | systemError
  | interrupt
  deriving DecidableEq, Repr

/-- Observable effects of one iteration of `PostgresWorker.run`. -/
structure StepResult where
  continues : Bool
  consecutive_errors : Nat
  statusWrite : Option (String × Status × Option String × Option String)
  sleptFor : Option Nat
  deriving Repr

/-- One iteration of the `while self.running` loop of `PostgresWorker.run`,
as a function of the incoming consecutive-error count and the iteration's
poll event.  `continues = false` corresponds to `break`; `statusWrite`
records the `update_task_status` call the iteration issues; `sleptFor`
records the argument of `time.sleep`. -/
def workerStep (c : ExecContracts) (poll_interval : Nat) (ev : PollEvent)
    (errs : Nat) : StepResult :=
  match ev with
  | .empty =>
      { continues := true, consecutive_errors := 0, statusWrite := none,
        sleptFor := some poll_interval }
  | .task t =>
      match execute_task c t with
      | .ok r =>
          { continues := true, consecutive_errors := 0,
            statusWrite := some (t.task_id, Status.finished, some r, none),
            sleptFor := none }
      | .error m =>
          { continues := true, consecutive_errors := 0,
            statusWrite := some (t.task_id, Status.failed, none, some m),
            sleptFor := none }
  | .interrupt =>
      { continues := false, consecutive_errors := errs, statusWrite := none,
        sleptFor := none }
  | .systemError =>
      let e := errs + 1
      if maxConsecutiveErrors ≤ e then
        { continues := false, consecutive_errors := e, statusWrite := none,
          sleptFor := none }
      else
        { continues := true, consecutive_errors := e, statusWrite := none,
          sleptFor := some (min 30 (2 ^ e)) }

/-- Running the worker loop over a sequence of poll events: stops early when
an iteration breaks; returns whether the worker is still running at the end
together with the final consecutive-error count. -/
def runWorker (c : ExecContracts) (poll_interval : Nat) :
    List PollEvent → Nat → Bool × Nat
  | [], e => (true, e)
  | ev :: evs, e =>
      let r := workerStep c poll_interval ev e
      if r.continues then runWorker c poll_interval evs r.consecutive_errors
      else (false, r.consecutive_errors)

/-- Events that are not system-level errors and not interrupts: successful
polls, successful completions and task-level execution failures. -/
def isTaskLevel (ev : PollEvent) : Bool :=
  match ev with
  | .systemError => false
  | .interrupt => false
  | _ => true

/-! ## Backend selection (UnifiedTaskQueue) -/

/-- The two backends of `UnifiedTaskQueue`. -/
inductive BackendKind where
  | postgresql
  | redis
  deriving DecidableEq, Repr

/-- `UnifiedTaskQueue._initialize_backend`: when `USE_POSTGRESQL` is true
(its default), try PostgreSQL; on failure fall through to Redis; when Redis
also fails, raise `RuntimeError("No task queue backend available. ...")`.
The two availability flags stand for whether constructing each backend
succeeds. -/
def initialize_backend (use_postgresql postgres_ok redis_ok : Bool) :
    Except String BackendKind :=
  if use_postgresql && postgres_ok then Except.ok BackendKind.postgresql
  else if redis_ok then Except.ok BackendKind.redis
  else Except.error "No task queue backend available"

/-- The dictionary returned by `UnifiedTaskQueue.get_queue_stats`. -/
structure UnifiedStats where
  base : QueueStats
  backend : BackendKind

/-- `UnifiedTaskQueue.get_queue_stats`: delegates to the selected backend and
adds `stats['backend'] = self.backend_name`. -/
def unified_get_queue_stats (backend_name : BackendKind) (base : QueueStats) :
    UnifiedStats :=
  { base := base, backend := backend_name }

/-! ## Concrete sample values used to instantiate the theorems -/

/-- A freshly enqueued consumer-triage task with the given id and creation time. -/
def tQueuedEx (i : String) (created : Nat) : Task :=
  newQueuedTask i "trigger_consumer_triage" "consumer_triage" "repoA" "repoB"
    "ev" "cfg" created

/-- A task that has already finished. -/
def tFinishedEx : Task :=
  { tQueuedEx "tf" 0 with
    status := Status.finished
    started_at := some 10
    ended_at := some 100
    result := some "ok" }

/-- A finished task created before the statistics window but ended inside it. -/
def staleFinishedTask : Task :=
  { tQueuedEx "c1" 0 with
    status := Status.finished
    started_at := some 10
    ended_at := some 100
    result := some "r" }

/-- An execution contract that always raises with message "boom". -/
def cFail : ExecContracts :=
  { consumer_triage := fun _ => Except.error "boom"
    template_triage := fun _ => Except.error "boom" }

/-- A task whose `task_type` matches no known contract. -/
def tNope : Task := { tQueuedEx "n1" 0 with task_type := "nope" }

/-- A backlog of two queued tasks with distinct ids. -/
def exStore2 : Store := [tQueuedEx "a" 0, tQueuedEx "b" 1]

/-! ## Theorems -/

/-- C5 (counterexample): a backend error during `get_next_task` yields
exactly the same silent `none` as an empty queue, instead of a typed
failure: the wrapper's `except` clause logs and returns `None`. -/
theorem get_next_task_silent_error_counterexample :
    get_next_task (Except.error DbError.connectionLost) = none ∧
    get_next_task (Except.error DbError.connectionLost) =
      get_next_task (Except.ok none) :=
  ⟨rfl, rfl⟩

/-- C5 (amended): every per-call backend error during `get_next_task` is
caught, logged, and turned into `none`, indistinguishable from the
no-task-available result; successful calls pass the backend row through. -/
theorem get_next_task_swallows_errors (e : DbError) (r : Option Task) :
    get_next_task (Except.error e) = none ∧ get_next_task (Except.ok r) = r :=
  ⟨rfl, rfl⟩

/-- C3 (counterexample): cancelling the queued task "t1" returns true, yet no
row of the resulting store carries error text "cancelled" — the UPDATE
writes "Cancelled by user". -/
theorem cancel_error_text_counterexample :
    (cancel_task [tQueuedEx "t1" 0] "t1" 7).2 = true ∧
    ∀ t ∈ (cancel_task [tQueuedEx "t1" 0] "t1" 7).1, ¬ t.error = some "cancelled" := by
  decide

/-- C3 (amended): `cancel_task` returns true iff some row with the given id
is in `queued` or `started`; such rows are transitioned to `failed` with
error text "Cancelled by user" and `ended_at` set; every terminal row is
left entirely unchanged. -/
theorem cancel_task_characterization (store : Store) (i : String) (now : Nat) :
    ((cancel_task store i now).2 = true ↔
      ∃ t ∈ store, t.task_id = i ∧
        (t.status = Status.queued ∨ t.status = Status.started)) ∧
    (cancel_task store i now).1 = store.map (cancelRow i now) ∧
    (∀ t : Task, t.status.isTerminal = true → cancelRow i now t = t) ∧
    (∀ t : Task, t.task_id = i →
      (t.status = Status.queued ∨ t.status = Status.started) →
      cancelRow i now t =
        { t with status := Status.failed, error := some "Cancelled by user",
                 ended_at := some now }) := by
  refine ⟨?_, rfl, ?_, ?_⟩
  · simp [cancel_task, List.any_eq_true]
  · intro t ht
    cases h : t.status <;> simp [h, Status.isTerminal] at ht ⊢ <;>
      simp [cancelRow, h]
  · intro t hid hst
    subst hid
    rcases hst with h | h <;> simp [cancelRow, h]

/-- C3 (witness for the amended theorem): cancelling the queued task "t1"
reports success. -/
theorem cancel_task_characterization_witness :
    (cancel_task [tQueuedEx "t1" 0] "t1" 7).2 = true :=
  (cancel_task_characterization [tQueuedEx "t1" 0] "t1" 7).1.mpr
    ⟨tQueuedEx "t1" 0, by simp, rfl, Or.inl rfl⟩

/-- C2: once a task is terminal, `update_task_status` with a different
terminal status fails with `InvalidTransitionError`; repeating the identical
terminal status and payload is an idempotent no-op; and in every case the
stored row is either returned unchanged or the call fails — it is never
silently overwritten out of a terminal state. -/
theorem update_terminal_protocol (t : Task) (st : Status) (r e : Option String)
    (now : Nat) (hterm : t.status.isTerminal = true) :
    (st.isTerminal = true → st ≠ t.status →
      update_task_status t st r e now = Except.error UpdateError.invalidTransition) ∧
    update_task_status t t.status t.result t.error now = Except.ok t ∧
    (update_task_status t st r e now = Except.ok t ∨
     update_task_status t st r e now = Except.error UpdateError.invalidTransition) := by
  refine ⟨?_, ?_, ?_⟩
  · intro _ hne
    simp [update_task_status, hterm, hne]
  · simp [update_task_status, hterm]
  · by_cases h : st == t.status && r == t.result && e == t.error
    · left
      simp at h
      obtain ⟨⟨h1, h2⟩, h3⟩ := h
      simp [update_task_status, hterm, h1, h2, h3]
    · right
      simp [update_task_status, hterm, h]

/-- C2 (witness): writing `failed` onto the finished task is rejected. -/
theorem update_terminal_protocol_witness :
    update_task_status tFinishedEx Status.failed none (some "x") 5 =
      Except.error UpdateError.invalidTransition :=
  (update_terminal_protocol tFinishedEx Status.failed none (some "x") 5 rfl).1
    rfl (by decide)

/-- C9: with `USE_POSTGRESQL` at its default `true`, backend initialization
selects PostgreSQL when it is reachable, falls back to Redis when PostgreSQL
is not, fails only when both are unavailable, and `get_queue_stats` of the
unified queue reports the name of the backend actually selected. -/
theorem backend_selection (use_pg pg_ok redis_ok : Bool) (b : BackendKind)
    (base : QueueStats) (hdefault : use_pg = true) :
    (pg_ok = true →
      initialize_backend use_pg pg_ok redis_ok = Except.ok BackendKind.postgresql) ∧
    (pg_ok = false → redis_ok = true →
      initialize_backend use_pg pg_ok redis_ok = Except.ok BackendKind.redis) ∧
    (pg_ok = false → redis_ok = false →
      initialize_backend use_pg pg_ok redis_ok =
        Except.error "No task queue backend available") ∧
    (unified_get_queue_stats b base).backend = b := by
  subst hdefault
  refine ⟨?_, ?_, ?_, rfl⟩ <;> intros <;> simp [initialize_backend, *]

/-- C9 (witness): with PostgreSQL forced unreachable and Redis reachable, the
unified queue initializes on Redis and stats names the Redis backend. -/
theorem backend_selection_witness :
    initialize_backend true false true = Except.ok BackendKind.redis ∧
    (unified_get_queue_stats BackendKind.redis (get_queue_stats [] 0)).backend =
      BackendKind.redis :=
  ⟨(backend_selection true false true BackendKind.redis (get_queue_stats [] 0)
      rfl).2.1 rfl rfl,
   (backend_selection true false true BackendKind.redis (get_queue_stats [] 0)
      rfl).2.2.2⟩

/-- Helper: the four status counts partition the whole table — the
status-count query carries no time window. -/
theorem countStatus_partition (store : Store) :
    countStatus store Status.queued + countStatus store Status.started +
    countStatus store Status.finished + countStatus store Status.failed =
    store.length := by
  induction store with
  | nil => rfl
  | cons t ts ih =>
      cases h : t.status <;>
        simp [countStatus, List.filter_cons, h] at ih ⊢ <;> omega

/-- C7 (counterexample): a finished task created before the 24-hour window
but ended inside it is excluded from the code's mean — the SQL filters on
`created_at`, not `ended_at` — while the mean the claim describes counts it;
the status counts are likewise not windowed at all. -/
theorem stats_window_counterexample :
    avg_duration_seconds [staleFinishedTask] (statsWindow + 50) = 0 ∧
    claimed_mean_duration [staleFinishedTask] (statsWindow + 50) = 90 ∧
    (get_queue_stats [staleFinishedTask] (statsWindow + 50)).completed = 1 := by
  refine ⟨by decide, ?_, by decide⟩
  norm_num [claimed_mean_duration, staleFinishedTask, tQueuedEx, newQueuedTask,
    inWindow, statsWindow]

/-- C7 (amended): `get_queue_stats` returns status counts over all rows (no
window), type counts over rows created within the last 24 hours, and the
mean of `ended_at - started_at` over finished rows with non-null timestamps
created within the window; when no such row exists the mean is the defined
value zero, never a division error. -/
theorem get_queue_stats_amended (store : Store) (now : Nat)
    (h : finishedDurations store now = []) :
    (get_queue_stats store now).avg_duration = 0 ∧
    (get_queue_stats store now).queued + (get_queue_stats store now).processing +
      (get_queue_stats store now).completed + (get_queue_stats store now).failed =
      store.length ∧
    (∀ ty, (get_queue_stats store now).type_counts ty = typeCount store now ty) := by
  refine ⟨?_, ?_, fun ty => rfl⟩
  · show avg_duration_seconds store now = 0
    simp [avg_duration_seconds, h]
  · exact countStatus_partition store

/-- C7 (witness for the amended theorem): on an empty store the mean duration
is the defined value zero. -/
theorem get_queue_stats_amended_witness :
    (get_queue_stats [] 0).avg_duration = 0 :=
  (get_queue_stats_amended [] 0 rfl).1

/-- C8: enqueueing with an explicit `task_id` already present in the store
fails with `DuplicateTaskError` and never silently creates a second row;
when the id is absent, exactly one row with that id exists afterwards. -/
theorem enqueue_duplicate_rejected (store : Store)
    (sk ty sr tr ce rc i : String) (now : Nat)
    (hdup : store.any (fun t => t.task_id == i) = true) :
    enqueue_task store sk ty sr tr ce rc i now =
      Except.error EnqueueError.duplicateTask ∧
    (∀ store2 : Store, store2.any (fun t => t.task_id == i) = false →
      ∀ r s2, enqueue_task store2 sk ty sr tr ce rc i now = Except.ok (r, s2) →
        r = i ∧ countId s2 i = 1) := by
  constructor
  · simp [enqueue_task, hdup]
  · intro store2 h2 r s2 hok
    simp [enqueue_task, h2] at hok
    obtain ⟨hr, hs⟩ := hok
    refine ⟨hr.symm, ?_⟩
    have hnone : ∀ t ∈ store2, ¬(t.task_id == i) = true := by
      intro t ht hc
      have hany : store2.any (fun t => t.task_id == i) = true :=
        List.any_eq_true.mpr ⟨t, ht, hc⟩
      rw [h2] at hany
      exact Bool.false_ne_true hany
    have hfil : store2.filter (fun t => t.task_id == i) = [] :=
      List.filter_eq_nil_iff.mpr hnone
    rw [← hs]
    simp [countId, List.filter_append, hfil, newQueuedTask]

/-- C8 (witness): re-enqueueing id "a" over a store already holding it is
rejected with the duplicate-task error. -/
theorem enqueue_duplicate_rejected_witness :
    enqueue_task [tQueuedEx "a" 0] "sk" "consumer_triage" "s" "t" "ev" "cfg"
      "a" 3 = Except.error EnqueueError.duplicateTask :=
  (enqueue_duplicate_rejected [tQueuedEx "a" 0] "sk" "consumer_triage" "s" "t"
    "ev" "cfg" "a" 3 (by decide)).1

/-- Helper: an iteration fed a task-level event (a poll, a completion or a
task execution failure) always continues and resets the error counter. -/
theorem workerStep_taskLevel (c : ExecContracts) (p : Nat) (ev : PollEvent)
    (e : Nat) (h : isTaskLevel ev = true) :
    (workerStep c p ev e).continues = true ∧
    (workerStep c p ev e).consecutive_errors = 0 := by
  cases ev with
  | task t =>
      cases het : execute_task c t with
      | ok r => simp [workerStep, het]
      | error m => simp [workerStep, het]
  | empty => simp [workerStep]
  | systemError => simp [isTaskLevel] at h
  | interrupt => simp [isTaskLevel] at h

/-- Helper: over any event sequence free of system errors and interrupts the
worker is still running at the end. -/
theorem runWorker_taskLevel (c : ExecContracts) (p : Nat) (evs : List PollEvent)
    (e : Nat) (hall : ∀ ev ∈ evs, isTaskLevel ev = true) :
    (runWorker c p evs e).1 = true := by
  induction evs generalizing e with
  | nil => rfl
  | cons ev evs ih =>
      have h1 := hall ev (by simp)
      have h2 : ∀ x ∈ evs, isTaskLevel x = true := fun x hx => hall x (by simp [hx])
      have hs := workerStep_taskLevel c p ev e h1
      simp only [runWorker, hs.1, if_true]
      exact ih _ h2

/-- C4: when the execution contract raises (in particular on an unknown
`task_type`), the iteration writes `failed` with the raised message verbatim
as the error, the worker continues to its next polling iteration, and
applying that write to the claimed (non-terminal) row stores the message in
the `error` field. -/
theorem failing_contract_marks_failed (c : ExecContracts) (p errs now : Nat)
    (t row : Task) (m : String)
    (hexec : execute_task c t = Except.error m)
    (hrow : row.status = Status.started) :
    (workerStep c p (PollEvent.task t) errs).continues = true ∧
    (workerStep c p (PollEvent.task t) errs).statusWrite =
      some (t.task_id, Status.failed, none, some m) ∧
    update_task_status row Status.failed none (some m) now =
      Except.ok { row with
        status := Status.failed
        result := none
        error := some m
        ended_at := some now } ∧
    (∀ u : Task, u.task_type ≠ "consumer_triage" →
      u.task_type ≠ "template_triage" →
      execute_task c u = Except.error ("Unknown task type: " ++ u.task_type)) := by
  refine ⟨?_, ?_, ?_, ?_⟩
  · simp [workerStep, hexec]
  · simp [workerStep, hexec]
  · simp [update_task_status, hrow, Status.isTerminal]
  · intro u h1 h2
    have b1 : (u.task_type == "consumer_triage") = false :=
      beq_eq_false_iff_ne.mpr h1
    have b2 : (u.task_type == "template_triage") = false :=
      beq_eq_false_iff_ne.mpr h2
    simp [execute_task, b1, b2]

/-- C4 (witness): with the always-raising contract, a claimed consumer-triage
task is recorded failed with the verbatim message "boom" and the iteration
continues. -/
theorem failing_contract_marks_failed_witness :
    (workerStep cFail 2 (PollEvent.task (tQueuedEx "w4" 0)) 3).continues = true ∧
    (workerStep cFail 2 (PollEvent.task (tQueuedEx "w4" 0)) 3).statusWrite =
      some ("w4", Status.failed, none, some "boom") :=
  ⟨(failing_contract_marks_failed cFail 2 3 9 (tQueuedEx "w4" 0)
      (startTask (tQueuedEx "r" 0) "w" 5) "boom" rfl rfl).1,
   (failing_contract_marks_failed cFail 2 3 9 (tQueuedEx "w4" 0)
      (startTask (tQueuedEx "r" 0) "w" 5) "boom" rfl rfl).2.1⟩

/-- C6: a consecutive system-level error increments the counter and, below
the ceiling `max_consecutive_errors = 5`, sleeps `min 30 (2 ^ errors)`
seconds; on reaching the ceiling the worker breaks out of its loop instead
of sleeping; a successful poll and a successful task completion reset the
counter to zero. -/
theorem system_error_backoff (c : ExecContracts) (p errs : Nat) (t : Task) :
    (errs + 1 < maxConsecutiveErrors →
      workerStep c p PollEvent.systemError errs =
        { continues := true, consecutive_errors := errs + 1, statusWrite := none,
          sleptFor := some (min 30 (2 ^ (errs + 1))) }) ∧
    (maxConsecutiveErrors ≤ errs + 1 →
      workerStep c p PollEvent.systemError errs =
        { continues := false, consecutive_errors := errs + 1,
          statusWrite := none, sleptFor := none }) ∧
    (workerStep c p PollEvent.empty errs).consecutive_errors = 0 ∧
    (∀ r, execute_task c t = Except.ok r →
      (workerStep c p (PollEvent.task t) errs).consecutive_errors = 0) := by
  refine ⟨?_, ?_, ?_, ?_⟩
  · intro h
    simp [workerStep, Nat.not_le.mpr h]
  · intro h
    simp [workerStep, h]
  · simp [workerStep]
  · intro r hr
    simp [workerStep, hr]

/-- C6 (witness): the first system error backs off for `min 30 2 = 2` seconds
with counter 1; the fifth consecutive system error stops the worker. -/
theorem system_error_backoff_witness :
    workerStep cFail 2 PollEvent.systemError 0 =
      { continues := true, consecutive_errors := 1, statusWrite := none,
        sleptFor := some 2 } ∧
    workerStep cFail 2 PollEvent.systemError 4 =
      { continues := false, consecutive_errors := 5, statusWrite := none,
        sleptFor := none } :=
  ⟨(system_error_backoff cFail 2 0 tNope).1 (by decide),
   (system_error_backoff cFail 2 4 tNope).2.1 (by decide)⟩

/-- C10: a task-level execution failure resets the consecutive-error counter
to zero, so a run of the loop over any sequence of task-level events —
failing tasks included, with no system-level errors — never reaches the
self-termination ceiling: the worker is still running afterwards. -/
theorem task_failure_resets_counter (c : ExecContracts) (p : Nat)
    (evs : List PollEvent) (e : Nat) (t : Task) (m : String)
    (hall : ∀ ev ∈ evs, isTaskLevel ev = true)
    (hfail : execute_task c t = Except.error m) :
    (workerStep c p (PollEvent.task t) e).consecutive_errors = 0 ∧
    (runWorker c p evs e).1 = true := by
  refine ⟨?_, runWorker_taskLevel c p evs e hall⟩
  simp [workerStep, hfail]

/-- C10 (witness): six consecutive failing tasks (an unknown task type, so
every execution raises) leave the worker running, even starting from an
error count of 4. -/
theorem task_failure_resets_counter_witness :
    (runWorker cFail 2 (List.replicate 6 (PollEvent.task tNope)) 4).1 = true :=
  (task_failure_resets_counter cFail 2
    (List.replicate 6 (PollEvent.task tNope)) 4 tNope "Unknown task type: nope"
    (by decide) rfl).2

/-! ## The claim-protocol theorems -/

/-- Helper: the fold selecting the oldest row stays within the backlog. -/
theorem foldl_olderTask_mem (ts : List Task) (a : Task) :
    ts.foldl olderTask a ∈ a :: ts := by
  induction ts generalizing a with
  | nil => simp
  | cons t ts ih =>
      have hor : olderTask a t = a ∨ olderTask a t = t := by
        unfold olderTask
        split
        · exact Or.inl rfl
        · exact Or.inr rfl
      simp only [List.foldl_cons]
      rcases hor with h2 | h2 <;> rw [h2]
      · have h := ih a
        simp only [List.mem_cons] at h ⊢
        tauto
      · have h := ih t
        simp only [List.mem_cons] at h ⊢
        tauto

/-- Helper: a row picked as oldest belongs to the backlog. -/
theorem pickOldest_mem {l : List Task} {t : Task} (h : pickOldest l = some t) :
    t ∈ l := by
  cases l with
  | nil => simp [pickOldest] at h
  | cons a ts =>
      simp only [pickOldest, Option.some.injEq] at h
      exact h ▸ foldl_olderTask_mem ts a

/-- Helper: the oldest row is absent only from an empty backlog. -/
theorem pickOldest_none {l : List Task} (h : pickOldest l = none) : l = [] := by
  cases l with
  | nil => rfl
  | cons a ts => simp [pickOldest] at h

/-- Helper: a claim rewrites rows in place, so the multiset of task ids of
the store is untouched. -/
theorem claimNext_ids (s : Store) (w : String) (now : Nat) :
    (claimNext s w now).2.map Task.task_id = s.map Task.task_id := by
  unfold claimNext
  cases hp : pickOldest (s.filter (fun t => t.status == Status.queued)) with
  | none => rfl
  | some t =>
      simp only [List.map_map]
      apply List.map_congr_left
      intro u _
      simp only [Function.comp_apply]
      by_cases hb : (u.task_id == t.task_id) = true
      · rw [if_pos hb]
        have hid : u.task_id = t.task_id := eq_of_beq hb
        simp [startTask, hid]
      · rw [if_neg hb]

/-- Helper: an unsuccessful claim leaves the store untouched, and happens
exactly when nothing is queued. -/
theorem claimNext_fst_none (s : Store) (w : String) (now : Nat)
    (h : (claimNext s w now).1 = none) :
    (claimNext s w now).2 = s ∧ countQueued s = 0 := by
  unfold claimNext at h ⊢
  cases hp : pickOldest (s.filter (fun t => t.status == Status.queued)) with
  | none =>
      have he := pickOldest_none hp
      exact ⟨by simp [hp], by simp [countQueued, he]⟩
  | some t =>
      rw [hp] at h
      simp at h

/-- Helper: a successful claim returns a row now `started` whose id was
queued, and replaces exactly the rows bearing that id. -/
theorem claimNext_fst_some (s : Store) (w : String) (now : Nat) (t : Task)
    (h : (claimNext s w now).1 = some t) :
    t.status = Status.started ∧ idQueued s t.task_id = true ∧
    (claimNext s w now).2 =
      s.map (fun u => if u.task_id == t.task_id then t else u) ∧
    countQueued s ≠ 0 := by
  unfold claimNext at h ⊢
  cases hp : pickOldest (s.filter (fun t => t.status == Status.queued)) with
  | none =>
      rw [hp] at h
      simp at h
  | some t0 =>
      rw [hp] at h
      simp only [Option.some.injEq] at h
      have hmem := pickOldest_mem hp
      rw [List.mem_filter] at hmem
      obtain ⟨hmem0, hq0⟩ := hmem
      subst h
      refine ⟨rfl, ?_, rfl, ?_⟩
      · rw [idQueued, List.any_eq_true]
        exact ⟨t0, hmem0, by simp [startTask, hq0]⟩
      · have hf : t0 ∈ s.filter (fun t => t.status == Status.queued) :=
          List.mem_filter.mpr ⟨hmem0, hq0⟩
        intro hc
        rw [countQueued, List.length_eq_zero] at hc
        rw [hc] at hf
        exact List.not_mem_nil t0 hf

/-- Helper: one queued-row count for each status of the head. -/
theorem countQueued_cons (a : Task) (ts : List Task) :
    countQueued (a :: ts) =
      (if (a.status == Status.queued) = true then 1 else 0) + countQueued ts := by
  by_cases h : (a.status == Status.queued) = true <;>
    simp [countQueued, List.filter_cons, h, Nat.add_comm]

/-- Helper: replacing the unique queued row bearing a given id by a
non-queued row decrements the queued count by one. -/
theorem count_map_replace (s : Store) (i : String) (t2 : Task)
    (hnd : (s.map Task.task_id).Nodup)
    (ht2 : (t2.status == Status.queued) = false) :
    ∀ t0 ∈ s, t0.task_id = i → t0.status = Status.queued →
      countQueued (s.map (fun u => if u.task_id == i then t2 else u)) + 1 =
        countQueued s := by
  induction s with
  | nil => intro t0 h0; simp at h0
  | cons a as ih =>
      rw [List.map_cons, List.nodup_cons] at hnd
      obtain ⟨ha, hnd9⟩ := hnd
      intro t0 hmem hid hq
      rcases List.mem_cons.mp hmem with rfl | hmem9
      · have hbeq : (t0.task_id == i) = true := beq_iff_eq.mpr hid
        have hqb : (t0.status == Status.queued) = true := beq_iff_eq.mpr hq
        have htail : as.map (fun u => if u.task_id == i then t2 else u) = as := by
          have hall : ∀ u ∈ as, (fun u => if u.task_id == i then t2 else u) u = u := by
            intro u hu
            have hne : u.task_id ≠ i := by
              intro hc
              apply ha
              rw [hid, ← hc]
              exact List.mem_map_of_mem Task.task_id hu
            simp [hne]
          rw [List.map_congr_left hall]
          simp
        have e1 : countQueued ((if (t0.task_id == i) = true then t2 else t0) ::
            as.map (fun u => if u.task_id == i then t2 else u)) = countQueued as := by
          rw [htail, countQueued_cons]
          simp [hbeq, ht2]
        have e2 : countQueued (t0 :: as) = 1 + countQueued as := by
          rw [countQueued_cons]
          simp [hqb]
        simp only [List.map_cons]
        rw [e1, e2]
        omega
      · have hne : (a.task_id == i) = false := by
          apply beq_eq_false_iff_ne.mpr
          intro hc
          apply ha
          rw [hc, ← hid]
          exact List.mem_map_of_mem Task.task_id hmem9
        rw [List.map_cons, hne]
        simp only [Bool.false_eq_true, if_false]
        rw [countQueued_cons, countQueued_cons]
        have := ih hnd9 t0 hmem9 hid hq
        omega

/-- Helper: when ids are unique, a successful claim decrements the queued
count by exactly one. -/
theorem claimNext_count (s : Store) (w : String) (now : Nat) (t : Task)
    (hnd : (s.map Task.task_id).Nodup)
    (h : (claimNext s w now).1 = some t) :
    countQueued (claimNext s w now).2 + 1 = countQueued s := by
  obtain ⟨hst, hqd, hsnd, _⟩ := claimNext_fst_some s w now t h
  rw [hsnd]
  rw [idQueued, List.any_eq_true] at hqd
  obtain ⟨t0, hmem, hcond⟩ := hqd
  rw [Bool.and_eq_true] at hcond
  obtain ⟨hcid, hcq⟩ := hcond
  have ht2 : (t.status == Status.queued) = false := by
    rw [hst]; decide
  exact count_map_replace s t.task_id t hnd ht2 t0 hmem (eq_of_beq hcid)
    (eq_of_beq hcq)

/-- Helper: a claim never makes a non-queued id queued again. -/
theorem claimNext_preserves_notQueued (s : Store) (w : String) (now : Nat)
    (i : String) (h : idQueued s i = false) :
    idQueued (claimNext s w now).2 i = false := by
  cases hf : (claimNext s w now).1 with
  | none =>
      rw [(claimNext_fst_none s w now hf).1]
      exact h
  | some t =>
      obtain ⟨hst, _, hsnd, _⟩ := claimNext_fst_some s w now t hf
      rw [hsnd]
      apply Bool.eq_false_iff.mpr
      intro hc
      rw [idQueued, List.any_eq_true] at hc
      obtain ⟨v, hv, hcond⟩ := hc
      rw [List.mem_map] at hv
      obtain ⟨u, hu, rfl⟩ := hv
      by_cases hb : (u.task_id == t.task_id) = true
      · rw [if_pos hb, Bool.and_eq_true] at hcond
        have hq : (t.status == Status.queued) = true := hcond.2
        rw [hst] at hq
        simp at hq
      · rw [if_neg hb] at hcond
        have : idQueued s i = true :=
          List.any_eq_true.mpr ⟨u, hu, hcond⟩
        rw [h] at this
        exact Bool.false_ne_true this

/-- Helper: after a successful claim, the claimed id is no longer queued. -/
theorem claimNext_unqueues (s : Store) (w : String) (now : Nat) (t : Task)
    (h : (claimNext s w now).1 = some t) :
    idQueued (claimNext s w now).2 t.task_id = false := by
  obtain ⟨hst, _, hsnd, _⟩ := claimNext_fst_some s w now t h
  rw [hsnd]
  apply Bool.eq_false_iff.mpr
  intro hc
  rw [idQueued, List.any_eq_true] at hc
  obtain ⟨v, hv, hcond⟩ := hc
  rw [List.mem_map] at hv
  obtain ⟨u, hu, rfl⟩ := hv
  by_cases hb : (u.task_id == t.task_id) = true
  · rw [if_pos hb, Bool.and_eq_true] at hcond
    have hq : (t.status == Status.queued) = true := hcond.2
    rw [hst] at hq
    simp at hq
  · rw [if_neg hb, Bool.and_eq_true] at hcond
    exact absurd hcond.1 hb

/-- Helper: claims made after an id has left the queued state never return
a row bearing that id. -/
theorem runClaims_avoid (now : Nat) (ws : List String) (s : Store) (i : String)
    (h : idQueued s i = false) :
    ∀ u ∈ (runClaims now s ws).1, u.task_id ≠ i := by
  induction ws generalizing s with
  | nil =>
      intro u hu
      simp [runClaims] at hu
  | cons w ws ih =>
      rcases hc : claimNext s w now with ⟨o, s1⟩
      have h1 : (claimNext s w now).1 = o := by rw [hc]
      have h2 : (claimNext s w now).2 = s1 := by rw [hc]
      have hs1 : idQueued s1 i = false := by
        rw [← h2]
        exact claimNext_preserves_notQueued s w now i h
      cases o with
      | none =>
          intro u hu
          simp only [runClaims, hc] at hu
          exact ih s1 hs1 u hu
      | some t =>
          intro u hu
          simp only [runClaims, hc, List.mem_cons] at hu
          rcases hu with rfl | hu
          · obtain ⟨_, hq, _, _⟩ := claimNext_fst_some s w now u h1
            intro hui
            rw [hui, h] at hq
            exact Bool.false_ne_true hq
          · exact ih s1 hs1 u hu

/-- C1: serializing any number of claim calls over a store with unique task
ids, no task row is ever handed to two callers (the claimed ids are
pairwise distinct), and the number of successful claims is exactly
`min` of the number of calls and the number of queued tasks available. -/
theorem claim_protocol (s : Store) (ws : List String) (now : Nat)
    (hnd : (s.map Task.task_id).Nodup) :
    ((runClaims now s ws).1.map Task.task_id).Nodup ∧
    (runClaims now s ws).1.length = min ws.length (countQueued s) := by
  induction ws generalizing s with
  | nil => simp [runClaims]
  | cons w ws ih =>
      rcases hc : claimNext s w now with ⟨o, s1⟩
      have h1 : (claimNext s w now).1 = o := by rw [hc]
      have h2 : (claimNext s w now).2 = s1 := by rw [hc]
      have hids : s1.map Task.task_id = s.map Task.task_id := by
        rw [← h2]
        exact claimNext_ids s w now
      have hnd1 : (s1.map Task.task_id).Nodup := by
        rw [hids]
        exact hnd
      cases o with
      | none =>
          obtain ⟨hs, hcq⟩ := claimNext_fst_none s w now h1
          have hs1 : s1 = s := by rw [← h2, hs]
          subst hs1
          obtain ⟨ihn, ihl⟩ := ih s1 hnd1
          constructor
          · simpa only [runClaims, hc] using ihn
          · simp only [runClaims, hc, ihl, hcq]
            omega
      | some t =>
          have hcnt : countQueued s1 + 1 = countQueued s := by
            rw [← h2]
            exact claimNext_count s w now t hnd h1
          obtain ⟨ihn, ihl⟩ := ih s1 hnd1
          have hnotq : idQueued s1 t.task_id = false := by
            rw [← h2]
            exact claimNext_unqueues s w now t h1
          have havoid := runClaims_avoid now ws s1 t.task_id hnotq
          constructor
          · simp only [runClaims, hc, List.map_cons, List.nodup_cons]
            refine ⟨?_, ihn⟩
            intro hmemid
            rw [List.mem_map] at hmemid
            obtain ⟨u, hu, huid⟩ := hmemid
            exact havoid u hu huid
          · simp only [runClaims, hc, List.length_cons, ihl]
            omega

/-- C1 (witness): two queued tasks and three sequential claimants — every
claimed id is distinct and exactly `min 3 2 = 2` claims succeed. -/
theorem claim_protocol_witness :
    ((runClaims 9 exStore2 ["w1", "w2", "w3"]).1.map Task.task_id).Nodup ∧
    (runClaims 9 exStore2 ["w1", "w2", "w3"]).1.length =
      min (["w1", "w2", "w3"].length) (countQueued exStore2) :=
  claim_protocol exStore2 ["w1", "w2", "w3"] 9 (by decide)

end DepOrch
